import Mathlib

/-!
Verification of the MLB entity-catalog and news-sentiment pipeline
(`final_presentation.py`, `final_presentation_v2.py`, `FinalProjectv2.py`,
`Outfield.py`).  The Python code is shallowly embedded: file contents,
upstream HTTP responses and the sentiment scorer are explicit parameters;
Python exceptions are modelled with `Except`; Python truthiness of the
relevant values (`None`, `0`, `""`) is modelled explicitly.  Sentiment
scores (floats in the source) are modelled as rationals: the categorizer
only performs order comparisons against decimal literals, which rationals
represent exactly.
-/

/-! ## String utilities (Python `str.lower` and the `in` substring test) -/

/-- Python `s.lower()` restricted to ASCII, which is all the code relies on. -/
def lowerStr (s : String) : String := String.mk (s.data.map Char.toLower)

/-- Character-list version of "the first list starts the second list". -/
def startsWithL : List Char → List Char → Bool
  | [], _ => true
  | _ :: _, [] => false
  | a :: as, b :: bs => a == b && startsWithL as bs

/-- Character-list version of Python `needle in hay` for strings:
true when `needle` occurs contiguously inside `hay` (always true for `[]`). -/
def containsL (needle : List Char) : List Char → Bool
  | [] => startsWithL needle []
  | c :: t => startsWithL needle (c :: t) || containsL needle t

/-- Python `needle in hay` on strings. -/
def pySubstr (needle hay : String) : Bool := containsL needle.data hay.data

/-! ## Calendar dates and the `%Y-%m-%d` format

`datetime.strptime(s, '%Y-%m-%d')` matches the anchored pattern
"1-4 digits, '-', 1-2 digits, '-', 1-2 digits" and then validates the
calendar date (`MINYEAR = 1`, month 1-12, day within the month, Gregorian
leap years).  Since `-` is not a digit, the regex match succeeds exactly
when splitting on `-` yields three nonempty all-digit fields of lengths
at most 4, 2, 2. -/

structure Date where
  year : Nat
  month : Nat
  day : Nat
deriving DecidableEq, Repr

/-- Python `datetime` comparison `a < b` (all times here are midnight, so it
is lexicographic on year, month, day). -/
def dateLtB (a b : Date) : Bool :=
  a.year < b.year ||
    (a.year == b.year && (a.month < b.month || (a.month == b.month && a.day < b.day)))

/-- `TRADE_DEADLINE = datetime(2024, 7, 30)` from the source globals. -/
def TRADE_DEADLINE : Date := ⟨2024, 7, 30⟩

def digitsToNat (l : List Char) : Nat :=
  l.foldl (fun acc c => 10 * acc + (c.toNat - '0'.toNat)) 0

/-- Splitting a character list on `-`, keeping empty fields (the behavior
of Python `str.split('-')`). -/
def splitDash : List Char → List (List Char)
  | [] => [[]]
  | c :: t =>
    if c = '-' then [] :: splitDash t
    else
      match splitDash t with
      | [] => [[c]]
      | h :: r => (c :: h) :: r

/-- One numeric field of the strptime pattern: nonempty, all digits,
at most `maxLen` characters. -/
def parseField (cs : List Char) (maxLen : Nat) : Option Nat :=
  if 1 ≤ cs.length && cs.length ≤ maxLen && cs.all Char.isDigit then
    some (digitsToNat cs)
  else none

def isLeapYear (y : Nat) : Bool :=
  y % 4 == 0 && (y % 100 != 0 || y % 400 == 0)

def daysInMonth (y m : Nat) : Nat :=
  if m = 2 then (if isLeapYear y then 29 else 28)
  else if m = 4 ∨ m = 6 ∨ m = 9 ∨ m = 11 then 30
  else 31

/-- `datetime.strptime(s, '%Y-%m-%d')`: `some` on success, `none` when the
call raises `ValueError`. -/
def parseYMD (s : String) : Option Date :=
  match splitDash s.data with
  | [ys, ms, ds] =>
    match parseField ys 4, parseField ms 2, parseField ds 2 with
    | some y, some m, some d =>
      if 1 ≤ y && y ≤ 9999 && 1 ≤ m && m ≤ 12 && 1 ≤ d && d ≤ daysInMonth y m then
        some ⟨y, m, d⟩
      else none
    | _, _, _ => none
  | _ => none

def padNat (n width : Nat) : String :=
  String.mk (List.replicate (width - (toString n).length) '0') ++ toString n

/-- `date.strftime('%Y-%m-%d')`. -/
def formatYMD (d : Date) : String :=
  padNat d.year 4 ++ "-" ++ padNat d.month 2 ++ "-" ++ padNat d.day 2

/-! ## The cached-catalog data model

The cache file `valid_mlb_entities.json` is modelled at the granularity the
code observes: the file can be missing, can fail JSON decoding, or can hold
a JSON document.  A document is either a non-object (list, string, number,
…) or an object with an optional `timestamp` field (absent, present with a
non-string value, or present with a string) and `teams`/`players` entry
lists. -/

structure Entity where
  id : Nat
  name : String
deriving DecidableEq, Repr

/-- The JSON value stored under the `timestamp` key. -/
inductive TsField where
  | missing
  | nonString
  | str (s : String)
deriving DecidableEq, Repr

structure CacheData where
  teams : List Entity
  players : List Entity
  timestamp : TsField
deriving DecidableEq, Repr

inductive JsonDoc where
  | nonObject
  | obj (data : CacheData)
deriving DecidableEq, Repr

inductive CacheFileState where
  | missing
  | notJson
  | doc (d : JsonDoc)
deriving DecidableEq, Repr

/-! ## `is_file_up_to_date` (identical in all four files)

```
def is_file_up_to_date(file_path, deadline):
    if not os.path.exists(file_path): return False
    try:
        with open(file_path, 'r') as f: data = json.load(f)
    except json.JSONDecodeError: return False
    last_updated_str = data.get('timestamp', '1900-01-01')
    try:
        last_updated = datetime.strptime(last_updated_str, '%Y-%m-%d')
        return last_updated > deadline
    except ValueError: return False
```

`data.get` on a non-dict document raises `AttributeError` and
`strptime` on a non-string raises `TypeError`; neither is caught, so both
escape the function — modelled as `.error ()`. -/

def is_file_up_to_date (st : CacheFileState) (deadline : Date) : Except Unit Bool :=
  match st with
  | .missing => .ok false
  | .notJson => .ok false
  | .doc .nonObject => .error ()
  | .doc (.obj data) =>
    match data.timestamp with
    | .nonString => .error ()
    | .missing =>
      match parseYMD "1900-01-01" with
      | none => .ok false
      | some dt => .ok (dateLtB deadline dt)
    | .str s =>
      match parseYMD s with
      | none => .ok false
      | some dt => .ok (dateLtB deadline dt)

/-! ## `load_or_update_valid_entries` (`final_presentation.py` lines 110-127)

The refresh step `fetch_and_cache_valid_entries()` is passed in as a
parameter `refresh`, covering every outcome of the upstream fetch.  Both
call sites of the refresh are bare: in the stale branch the call stands
before the guarded read, and in the fresh-read-failure branch nothing is
guarded, so an exception raised inside the refresh itself propagates to
the caller.  The refresh can indeed raise: in `FinalProjectv2.py` the
comprehensions `{"id": p['id'], "name": p['fullName']}` raise `KeyError`
on an upstream entry missing a key, and in the roster-based variant a 200
response whose body is valid non-object JSON makes
`teams_resp.json().get("teams", [])` raise `AttributeError`; neither is
caught by the surrounding `except` clauses.  `load_or_update_valid_entriesE`
therefore takes an `Except`-valued refresh (`.error` = the refresh raised,
`.ok st2` = the refresh completed leaving the file in state `st2`).
`load_or_update_valid_entries` is its restriction to non-raising refresh
outcomes, used by the refresh-trigger analysis (which only concerns when
the refresh is invoked, a point reached before anything can raise).
The functions return the loaded JSON document together with a flag
recording whether a refresh was triggered; `.error` models an uncaught
exception reaching the caller.  On the fresh branch the first read is
guarded: a failure re-fetches and then re-reads the file with no handler,
so a failing re-read propagates. -/

def emptyEntriesDict : CacheData := ⟨[], [], .missing⟩

def load_or_update_valid_entriesE (refresh : CacheFileState → Except Unit CacheFileState)
    (st : CacheFileState) : Except Unit (JsonDoc × Bool) :=
  match is_file_up_to_date st TRADE_DEADLINE with
  | .error e => .error e
  | .ok true =>
    match st with
    | .doc d => .ok (d, false)
    | _ =>
      match refresh st with
      | .error e => .error e
      | .ok st2 =>
        match st2 with
        | .doc d => .ok (d, true)
        | _ => .error ()
  | .ok false =>
    match refresh st with
    | .error e => .error e
    | .ok st2 =>
      match st2 with
      | .doc d => .ok (d, true)
      | _ => .ok (.obj emptyEntriesDict, true)

def load_or_update_valid_entries (refresh : CacheFileState → CacheFileState)
    (st : CacheFileState) : Except Unit (JsonDoc × Bool) :=
  match is_file_up_to_date st TRADE_DEADLINE with
  | .error e => .error e
  | .ok true =>
    match st with
    | .doc d => .ok (d, false)
    | _ =>
      match refresh st with
      | .doc d => .ok (d, true)
      | _ => .error ()
  | .ok false =>
    match refresh st with
    | .doc d => .ok (d, true)
    | _ => .ok (.obj emptyEntriesDict, true)

/-! ## Catalog refresh: `fetch_and_cache_valid_entries`

Roster-based variant (`final_presentation.py` lines 42-108,
`final_presentation_v2.py` lines 40-106, `Outfield.py` lines 51-117).
Upstream responses are inputs: `teamsResp = none` models a
`RequestException` on the team-list request (the code then continues with
`teams_list = []`), and `rosters i = none` models a failed roster request
for team id `i` (the code continues with `roster_entries = []`).
Python truthiness of the raw fields is explicit: a team is skipped when
its `id` is absent or `0` or its `name` is absent or `""`, and likewise
for roster persons. -/

structure RawTeam where
  id : Option Nat
  name : Option String
deriving DecidableEq, Repr

structure RawPerson where
  id : Option Nat
  fullName : Option String
deriving DecidableEq, Repr

/-- One element of the `roster` array; `entry.get("person") or {}` turns an
absent or null `person` into an empty dict. -/
structure RosterEntry where
  person : Option RawPerson
deriving DecidableEq, Repr

structure Upstream where
  teamsResp : Option (List RawTeam)
  rosters : Nat → Option (List RosterEntry)
  today : Date

/-- Python truthiness of an integer-or-None value: falsy iff `None` or `0`. -/
def pyTruthyId : Option Nat → Bool
  | none => false
  | some n => n != 0

/-- Python truthiness of a string-or-None value: falsy iff `None` or `""`. -/
def pyTruthyName : Option String → Bool
  | none => false
  | some s => s != ""

/-- The players contributed by one (already validated) team: its roster
entries with a truthy person id and full name. -/
def playersOfTeam (u : Upstream) (rt : RawTeam) : List Entity :=
  ((u.rosters (rt.id.getD 0)).getD []).filterMap (fun e =>
    let person := e.person.getD ⟨none, none⟩
    if pyTruthyId person.id && pyTruthyName person.fullName then
      some ⟨person.id.getD 0, person.fullName.getD ""⟩
    else none)

/-- The team loop of `fetch_and_cache_valid_entries`: accumulates the
`teams` and `players` lists in iteration order. -/
def collectEntries (u : Upstream) : List RawTeam → List Entity × List Entity
  | [] => ([], [])
  | rt :: rest =>
    if pyTruthyId rt.id && pyTruthyName rt.name then
      let res := collectEntries u rest
      (⟨rt.id.getD 0, rt.name.getD ""⟩ :: res.1, playersOfTeam u rt ++ res.2)
    else collectEntries u rest

/-- The `valid_data` object built and written by the roster-based
`fetch_and_cache_valid_entries`. -/
def fetch_and_cache_valid_entries (u : Upstream) : CacheData :=
  let teams_list := u.teamsResp.getD []
  let res := collectEntries u teams_list
  ⟨res.1, res.2, .str (formatYMD u.today)⟩

/-! ## Catalog refresh, `FinalProjectv2.py` variant (lines 41-68)

This variant requests `/people` and `/teams` directly and builds the
cached lists with comprehensions `{"id": p['id'], "name": p['fullName']}`
with no per-entry filtering.  A `RequestException` on either request, or a
JSON decoding failure, makes the function return early without writing
(`.ok none`).  A missing `id`/`fullName`/`name` key raises `KeyError`,
which nothing catches (`.error ()`). -/

inductive RespV2 (α : Type) where
  | reqErr
  | badJson
  | ok (payload : α)

structure UpstreamV2 where
  people : RespV2 (List RawPerson)
  teams : RespV2 (List RawTeam)
  today : Date

def personToEntryV2 (p : RawPerson) : Except Unit Entity :=
  match p.id, p.fullName with
  | some i, some n => .ok ⟨i, n⟩
  | _, _ => .error ()

def teamToEntryV2 (t : RawTeam) : Except Unit Entity :=
  match t.id, t.name with
  | some i, some n => .ok ⟨i, n⟩
  | _, _ => .error ()

def fetch_and_cache_valid_entries_v2 (u : UpstreamV2) : Except Unit (Option CacheData) :=
  match u.people with
  | .reqErr => .ok none
  | .badJson => .ok none
  | .ok people =>
    match u.teams with
    | .reqErr => .ok none
    | .badJson => .ok none
    | .ok teams => do
      let players ← people.mapM personToEntryV2
      let teamEntries ← teams.mapM teamToEntryV2
      .ok (some ⟨teamEntries, players, .str (formatYMD u.today)⟩)

/-! ## Articles and sentiment analysis

An article field can be absent, present with JSON `null`, or present with
a string.  `analyze_sentiment` (identical in all files) scores
`article.get('description', '') or ''` with the VADER compound score and
attaches it; the scorer is a black-box parameter, axiomatized where a
claim needs it to map `""` to the neutral score `0`. -/

inductive PyField where
  | absent
  | null
  | str (s : String)
deriving DecidableEq, Repr

structure Article where
  description : PyField
  content : PyField
deriving DecidableEq, Repr

/-- `article.get('description', '') or ''`: the `get` yields `''` when the
key is absent, `None` when it is null, and the string otherwise; `or ''`
replaces a falsy result (`None` or `""`) by `""`. -/
def descOrEmpty (a : Article) : String :=
  let got : Option String :=
    match a.description with
    | .absent => some ""
    | .null => none
    | .str s => some s
  match got with
  | none => ""
  | some s => if s = "" then "" else s

/-- The scoring loop: each article gets `scorer` applied to its selected
text attached as its `sentiment_score`. -/
def analyze_sentiment (scorer : String → ℚ) : List Article → List (Article × ℚ)
  | [] => []
  | article :: rest =>
    (article, scorer (descOrEmpty article)) :: analyze_sentiment scorer rest

/-! ## `fetch_news`

Transport outcome and body parsing are inputs.  `fetch_news` embeds the
four copies that guard the request with both handlers
(`final_presentation.py` lines 131-144, `final_presentation_v2.py` lines
129-150, `FinalProjectv2.py` lines 91-104, `Outfield.py` lines 145-166):
a `RequestException` and a `JSONDecodeError` are each caught and turned
into `[]`.  `fetch_news_final_proj` embeds the second copy in
`Outfield.py` (lines 575-585, the appended `final proj.py` section),
whose only handler is for `JSONDecodeError`: a transport error propagates
(`.error ()`). -/

inductive NewsResp where
  | transportErr
  | badJson
  | ok (articles : Option (List Article))
deriving DecidableEq, Repr

def fetch_news (r : NewsResp) : Except Unit (List Article) :=
  match r with
  | .transportErr => .ok []
  | .badJson => .ok []
  | .ok arts => .ok (arts.getD [])

def fetch_news_final_proj (r : NewsResp) : Except Unit (List Article) :=
  match r with
  | .transportErr => .error ()
  | .badJson => .ok []
  | .ok arts => .ok (arts.getD [])

/-! ## `categorize_score` (`final_presentation_v2.py` lines 160-174,
`Outfield.py` lines 177-191) -/

def categorize_score (score : ℚ) : String :=
  if score ≤ -0.667 then "Strongly negative"
  else if score ≤ -0.334 then "Moderately negative"
  else if score < 0.0 then "Slightly negative"
  else if score = 0.0 then "Neutral"
  else if score ≤ 0.333 then "Slightly positive"
  else if score ≤ 0.666 then "Moderately positive"
  else "Strongly positive"

/-! ## Free-text resolution (`main` in `final_presentation.py` lines
353-385 and `FinalProjectv2.py` lines 175-207)

The team loop assigns `entity_id`/`entity_type`/`entity_name` from the
first team whose lowercased name contains the lowercased input and breaks;
the player loop then runs unconditionally and does the same over players;
the league check fires only when `entity_id` is falsy; finally a falsy
`entity_id` with a non-league type prints "Invalid input" and returns
(modelled as `none`). -/

structure ResolvedState where
  entity_id : Option Nat
  entity_type : Option String
  entity_name : Option String
deriving DecidableEq, Repr

def pyFalsyOptNat : Option Nat → Bool
  | none => true
  | some n => n == 0

/-- `user_input.lower() in name.lower()`. -/
def nameMatch (user_input name : String) : Bool :=
  pySubstr (lowerStr user_input) (lowerStr name)

def mainResolve (valid_entries : CacheData) (user_input : String) : Option ResolvedState :=
  let s1 : ResolvedState :=
    match valid_entries.teams.find? (fun t => nameMatch user_input t.name) with
    | some t => ⟨some t.id, some "team", some t.name⟩
    | none => ⟨none, none, none⟩
  let s2 : ResolvedState :=
    match valid_entries.players.find? (fun p => nameMatch user_input p.name) with
    | some p => ⟨some p.id, some "player", some p.name⟩
    | none => s1
  let s3 : ResolvedState :=
    if pyFalsyOptNat s2.entity_id && (lowerStr user_input == "mlb") then
      ⟨none, some "league", some "MLB"⟩
    else s2
  if pyFalsyOptNat s3.entity_id && !(s3.entity_type == some "league") then none
  else some s3

/-! ## Spec-side vocabulary used by theorem statements -/

/-- The effective timestamp string the freshness check feeds to `strptime`:
the default `'1900-01-01'` when the key is absent, no string at all when
the value is not a string. -/
def tsEff : TsField → Option String
  | .missing => some "1900-01-01"
  | .nonString => none
  | .str s => some s

/-- The catalog entry the ingestion loop would store for a raw team:
`some` exactly when both fields are truthy. -/
def mkTeamEntry (rt : RawTeam) : Option Entity :=
  if pyTruthyId rt.id && pyTruthyName rt.name then
    some ⟨rt.id.getD 0, rt.name.getD ""⟩
  else none

/-- Concatenation of the images of a list-valued function, in order. -/
def concatMapL {α β : Type} (f : α → List β) : List α → List β
  | [] => []
  | a :: t => f a ++ concatMapL f t

/-- A sample upstream world: two valid teams, the roster request failing
for team 1 and succeeding for team 2. -/
def sampleUpstream : Upstream :=
  ⟨some [⟨some 1, some "Alpha"⟩, ⟨some 2, some "Beta"⟩],
   fun i => if i == 2 then some [⟨some ⟨some 9, some "Player Nine"⟩⟩] else none,
   ⟨2025, 10, 12⟩⟩

/-! ## Theorems -/

set_option maxHeartbeats 1000000 in
/-- Claim C3: on `[-1, 1]` the categorizer realizes exactly the seven-bucket
table, boundaries included on the stated sides. -/
theorem claim_C3_categorization_table (s : ℚ) (hlo : -1 ≤ s) (hhi : s ≤ 1) :
    (categorize_score s = "Strongly negative" ↔ s ≤ -0.667)
    ∧ (categorize_score s = "Moderately negative" ↔ -0.667 < s ∧ s ≤ -0.334)
    ∧ (categorize_score s = "Slightly negative" ↔ -0.334 < s ∧ s < 0)
    ∧ (categorize_score s = "Neutral" ↔ s = 0)
    ∧ (categorize_score s = "Slightly positive" ↔ 0 < s ∧ s ≤ 0.333)
    ∧ (categorize_score s = "Moderately positive" ↔ 0.333 < s ∧ s ≤ 0.666)
    ∧ (categorize_score s = "Strongly positive" ↔ 0.666 < s) := by
  have h00 : (0.0 : ℚ) = 0 := by norm_num
  unfold categorize_score
  rw [h00]
  split_ifs with h1 h2 h3 h4 h5 h6 <;>
    refine ⟨?_, ?_, ?_, ?_, ?_, ?_, ?_⟩ <;>
    constructor <;>
    intro h <;>
    first
      | rfl
      | exact absurd h h4
      | linarith
      | (exact ⟨lt_of_le_of_ne (by linarith) (fun e => h4 e.symm), by linarith⟩)
      | (exact ⟨by linarith, by linarith⟩)
      | (obtain ⟨ha, hb⟩ := h; exfalso; linarith)
      | (simp at h)

/-- Witness for C3 at the concrete score `0`. -/
theorem claim_C3_categorization_table_witness :
    ((-1 : ℚ) ≤ 0 ∧ (0 : ℚ) ≤ 1) ∧ (categorize_score 0 = "Neutral" ↔ (0 : ℚ) = 0) :=
  ⟨⟨by norm_num, by norm_num⟩,
   (claim_C3_categorization_table 0 (by norm_num) (by norm_num)).2.2.2.1⟩

/-- Counterexample to claim C4: `-0.6669` is strictly greater than `-0.667`,
so the code buckets it as "Moderately negative", not "Strongly negative" as
the claim asserts. -/
theorem claim_C4_counterexample :
    categorize_score (-0.6669) = "Moderately negative"
    ∧ categorize_score (-0.6669) ≠ "Strongly negative" := by
  have h : categorize_score (-0.6669) = "Moderately negative" := by
    norm_num [categorize_score]
  exact ⟨h, by rw [h]; decide⟩

/-- Claim C4 as amended: the five boundary test values as the code (and the
spec's own table) actually compute them, with `-0.6669` mapped to
"Moderately negative". -/
theorem claim_C4_boundaries_amended :
    categorize_score (-0.667) = "Strongly negative"
    ∧ categorize_score (-0.6669) = "Moderately negative"
    ∧ categorize_score (-0.6) = "Moderately negative"
    ∧ categorize_score 0 = "Neutral"
    ∧ categorize_score 0.667 = "Strongly positive" := by
  refine ⟨?_, ?_, ?_, ?_, ?_⟩ <;> norm_num [categorize_score]

/-- Counterexample to claim C9: the second `fetch_news` copy in
`Outfield.py` has no handler for transport errors, so the exception
propagates instead of producing `[]`. -/
theorem claim_C9_counterexample :
    fetch_news_final_proj .transportErr = .error () := rfl

/-- Claim C9 as amended: every variant downgrades a JSON-parse failure to
`[]`; the four dual-handler variants also downgrade transport errors, while
the second copy in `Outfield.py` propagates them. -/
theorem claim_C9_amended_downgrade :
    fetch_news .transportErr = .ok []
    ∧ fetch_news .badJson = .ok []
    ∧ fetch_news_final_proj .badJson = .ok []
    ∧ fetch_news_final_proj .transportErr = .error () :=
  ⟨rfl, rfl, rfl, rfl⟩

/-- Claim C8: sentiment is computed on the description-or-empty text,
independently of the `content` field, and any article whose description is
absent, null or empty scores the neutral `0` (the black-box scorer is
assumed total with `scorer "" = 0`). -/
theorem claim_C8_sentiment_input (scorer : String → ℚ) (h0 : scorer "" = 0)
    (articles : List Article) :
    analyze_sentiment scorer articles
      = articles.map (fun a => (a, scorer (descOrEmpty a)))
    ∧ (∀ a : Article,
        a.description = .absent ∨ a.description = .null ∨ a.description = .str "" →
        scorer (descOrEmpty a) = 0)
    ∧ (∀ a : Article, ∀ c : PyField, descOrEmpty ⟨a.description, c⟩ = descOrEmpty a) := by
  refine ⟨?_, ?_, ?_⟩
  · induction articles with
    | nil => rfl
    | cons a t ih => simp [analyze_sentiment, ih]
  · intro a h
    rcases h with h | h | h <;> simp [descOrEmpty, h, h0]
  · intro a c
    rfl

/-- Witness for C8: a scorer with `scorer "" = 0`, applied to an article
with no description and a nonempty `content`, attaches the neutral score. -/
theorem claim_C8_sentiment_input_witness :
    ((fun s => if s = "" then (0 : ℚ) else 1/2) "" = 0)
    ∧ analyze_sentiment (fun s => if s = "" then (0 : ℚ) else 1/2)
        [⟨.absent, .str "full content"⟩]
      = [(⟨.absent, .str "full content"⟩, 0)] := by
  constructor
  · simp
  · have h := claim_C8_sentiment_input (fun s => if s = "" then (0 : ℚ) else 1/2)
      (by simp) [⟨.absent, .str "full content"⟩]
    rw [h.1]
    simp [descOrEmpty]

/-- The teams list accumulated by the ingestion loop is exactly the raw
teams with truthy id and name, in order. -/
theorem collectEntries_teams_eq (u : Upstream) (l : List RawTeam) :
    (collectEntries u l).1 = l.filterMap mkTeamEntry := by
  induction l with
  | nil => rfl
  | cons rt rest ih =>
    cases hc : pyTruthyId rt.id && pyTruthyName rt.name <;>
      simp [collectEntries, mkTeamEntry, hc, ih]

/-- The players list accumulated by the ingestion loop is the concatenation
of the (filtered) rosters of the truthy teams, in order. -/
theorem collectEntries_players_eq (u : Upstream) (l : List RawTeam) :
    (collectEntries u l).2
      = concatMapL (playersOfTeam u)
          (l.filter (fun rt => pyTruthyId rt.id && pyTruthyName rt.name)) := by
  induction l with
  | nil => rfl
  | cons rt rest ih =>
    cases hc : pyTruthyId rt.id && pyTruthyName rt.name <;>
      simp [collectEntries, concatMapL, hc, ih]

theorem mem_concatMapL {α β : Type} (f : α → List β) (l : List α) (b : β) :
    b ∈ concatMapL f l ↔ ∃ a ∈ l, b ∈ f a := by
  induction l with
  | nil => simp [concatMapL]
  | cons x t ih => simp [concatMapL, ih]

/-- A stored team entry always has a nonzero id and a nonempty name. -/
theorem mkTeamEntry_sound (rt : RawTeam) (e : Entity)
    (h : mkTeamEntry rt = some e) : e.id ≠ 0 ∧ e.name ≠ "" := by
  unfold mkTeamEntry at h
  split at h
  case isTrue hc =>
    obtain ⟨h1, h2⟩ := Bool.and_eq_true_iff.mp hc
    obtain rfl := Option.some.inj h
    constructor
    · cases hid : rt.id with
      | none => rw [hid] at h1; simp [pyTruthyId] at h1
      | some n => rw [hid] at h1; simpa [pyTruthyId, hid] using h1
    · cases hn : rt.name with
      | none => rw [hn] at h2; simp [pyTruthyName] at h2
      | some s => rw [hn] at h2; simpa [pyTruthyName, hn] using h2
  case isFalse hc => cases h

/-- A stored player entry always has a nonzero id and a nonempty name. -/
theorem playersOfTeam_sound (u : Upstream) (rt : RawTeam) (e : Entity)
    (h : e ∈ playersOfTeam u rt) : e.id ≠ 0 ∧ e.name ≠ "" := by
  unfold playersOfTeam at h
  rw [List.mem_filterMap] at h
  obtain ⟨entry, hmem, hsome⟩ := h
  set person := entry.person.getD ⟨none, none⟩ with hp
  by_cases hc : (pyTruthyId person.id && pyTruthyName person.fullName) = true
  · rw [if_pos hc] at hsome
    obtain ⟨h1, h2⟩ := Bool.and_eq_true_iff.mp hc
    obtain rfl := Option.some.inj hsome
    constructor
    · cases hid : person.id with
      | none => rw [hid] at h1; simp [pyTruthyId] at h1
      | some n => rw [hid] at h1; simpa [pyTruthyId, hid] using h1
    · cases hn : person.fullName with
      | none => rw [hn] at h2; simp [pyTruthyName] at h2
      | some s => rw [hn] at h2; simpa [pyTruthyName, hn] using h2
  · rw [if_neg hc] at hsome
    cases hsome

/-- Counterexample to claim C6: the `FinalProjectv2.py` variant of
`fetch_and_cache_valid_entries` stores roster entries unfiltered, so a
person with an empty full name is written to the cache. -/
theorem claim_C6_counterexample :
    fetch_and_cache_valid_entries_v2 ⟨.ok [⟨some 5, some ""⟩], .ok [], ⟨2025, 7, 1⟩⟩
      = .ok (some ⟨[], [⟨5, ""⟩], .str "2025-07-01"⟩)
    ∧ Entity.name ⟨5, ""⟩ = "" :=
  ⟨rfl, rfl⟩

/-- Claim C6 as amended: the roster-based variant of
`fetch_and_cache_valid_entries` stores exactly the upstream entries with a
truthy id and name (entries missing either field are skipped) and every
stored team and player has a nonzero id and nonempty name; the
`FinalProjectv2.py` variant performs no such filtering. -/
theorem claim_C6_ingestion_amended (u : Upstream) :
    (fetch_and_cache_valid_entries u).teams
      = (u.teamsResp.getD []).filterMap mkTeamEntry
    ∧ (fetch_and_cache_valid_entries u).players
      = concatMapL (playersOfTeam u)
          ((u.teamsResp.getD []).filter
            (fun rt => pyTruthyId rt.id && pyTruthyName rt.name))
    ∧ (∀ e ∈ (fetch_and_cache_valid_entries u).teams, e.id ≠ 0 ∧ e.name ≠ "")
    ∧ (∀ e ∈ (fetch_and_cache_valid_entries u).players, e.id ≠ 0 ∧ e.name ≠ "") := by
  have ht : (fetch_and_cache_valid_entries u).teams
      = (collectEntries u (u.teamsResp.getD [])).1 := rfl
  have hp : (fetch_and_cache_valid_entries u).players
      = (collectEntries u (u.teamsResp.getD [])).2 := rfl
  refine ⟨?_, ?_, ?_, ?_⟩
  · rw [ht, collectEntries_teams_eq]
  · rw [hp, collectEntries_players_eq]
  · intro e he
    rw [ht, collectEntries_teams_eq, List.mem_filterMap] at he
    obtain ⟨rt, _, hrt⟩ := he
    exact mkTeamEntry_sound rt e hrt
  · intro e he
    rw [hp, collectEntries_players_eq, mem_concatMapL] at he
    obtain ⟨rt, _, hrt⟩ := he
    exact playersOfTeam_sound u rt e hrt

/-- Witness for C6 (amended) at a concrete upstream world. -/
theorem claim_C6_ingestion_amended_witness :
    (⟨1, "Alpha"⟩ : Entity) ∈ (fetch_and_cache_valid_entries sampleUpstream).teams
    ∧ Entity.id ⟨1, "Alpha"⟩ ≠ 0 ∧ Entity.name ⟨1, "Alpha"⟩ ≠ "" := by
  have hmem : (⟨1, "Alpha"⟩ : Entity) ∈ (fetch_and_cache_valid_entries sampleUpstream).teams := by
    decide
  exact ⟨hmem, (claim_C6_ingestion_amended sampleUpstream).2.2.1 ⟨1, "Alpha"⟩ hmem⟩

/-- Claim C7: during a roster-based refresh, a total failure to list teams
yields an empty but still timestamped catalog; every truthy team is
recorded whatever its roster outcome; a failed roster contributes zero
players; and every successfully fetched player of a truthy team is kept. -/
theorem claim_C7_partial_refresh (u : Upstream) :
    (u.teamsResp = none →
      fetch_and_cache_valid_entries u = ⟨[], [], .str (formatYMD u.today)⟩)
    ∧ (∀ rt ∈ u.teamsResp.getD [],
        pyTruthyId rt.id = true → pyTruthyName rt.name = true →
        (⟨rt.id.getD 0, rt.name.getD ""⟩ : Entity) ∈ (fetch_and_cache_valid_entries u).teams)
    ∧ (∀ rt : RawTeam, u.rosters (rt.id.getD 0) = none → playersOfTeam u rt = [])
    ∧ (∀ rt ∈ u.teamsResp.getD [],
        pyTruthyId rt.id = true → pyTruthyName rt.name = true →
        ∀ e ∈ playersOfTeam u rt, e ∈ (fetch_and_cache_valid_entries u).players) := by
  have ht : (fetch_and_cache_valid_entries u).teams
      = (collectEntries u (u.teamsResp.getD [])).1 := rfl
  have hp : (fetch_and_cache_valid_entries u).players
      = (collectEntries u (u.teamsResp.getD [])).2 := rfl
  refine ⟨?_, ?_, ?_, ?_⟩
  · intro h
    simp [fetch_and_cache_valid_entries, h, collectEntries]
  · intro rt hmem h1 h2
    rw [ht, collectEntries_teams_eq, List.mem_filterMap]
    exact ⟨rt, hmem, by simp [mkTeamEntry, h1, h2]⟩
  · intro rt h
    simp [playersOfTeam, h]
  · intro rt hmem h1 h2 e he
    rw [hp, collectEntries_players_eq, mem_concatMapL]
    exact ⟨rt, List.mem_filter.mpr ⟨hmem, by simp [h1, h2]⟩, he⟩

/-- Witness for C7: in the sample world team 1's roster request fails but
the team is recorded, and team 2's successfully fetched player is kept. -/
theorem claim_C7_partial_refresh_witness :
    (⟨1, "Alpha"⟩ : Entity) ∈ (fetch_and_cache_valid_entries sampleUpstream).teams
    ∧ playersOfTeam sampleUpstream ⟨some 1, some "Alpha"⟩ = []
    ∧ (⟨9, "Player Nine"⟩ : Entity) ∈ (fetch_and_cache_valid_entries sampleUpstream).players := by
  have h := claim_C7_partial_refresh sampleUpstream
  refine ⟨?_, ?_, ?_⟩
  · exact h.2.1 ⟨some 1, some "Alpha"⟩ (by decide) rfl rfl
  · exact h.2.2.1 ⟨some 1, some "Alpha"⟩ rfl
  · exact h.2.2.2 ⟨some 2, some "Beta"⟩ (by decide) rfl rfl ⟨9, "Player Nine"⟩ (by decide)

/-- When the freshness check returns `True`, the cache file necessarily
holds a JSON object. -/
theorem up_to_date_true_shape (st : CacheFileState)
    (h : is_file_up_to_date st TRADE_DEADLINE = .ok true) :
    ∃ data, st = .doc (.obj data) := by
  cases st with
  | missing => simp [is_file_up_to_date] at h
  | notJson => simp [is_file_up_to_date] at h
  | doc d =>
    cases d with
    | nonObject => simp [is_file_up_to_date] at h
    | obj data => exact ⟨data, rfl⟩

/-- Claim C1: the freshness check returns `True` exactly when the cache
file holds a JSON object whose effective timestamp string parses in
`%Y-%m-%d` format to a date strictly after `TRADE_DEADLINE`; a missing
file, undecodable JSON, or an unparseable timestamp each give `False`; and
`load_or_update_valid_entries` triggers a refresh exactly when the check
returns `False`. -/
theorem claim_C1_freshness (st : CacheFileState) :
    (is_file_up_to_date st TRADE_DEADLINE = .ok true ↔
      ∃ data s dt, st = .doc (.obj data) ∧ tsEff data.timestamp = some s
        ∧ parseYMD s = some dt ∧ dateLtB TRADE_DEADLINE dt = true)
    ∧ is_file_up_to_date .missing TRADE_DEADLINE = .ok false
    ∧ is_file_up_to_date .notJson TRADE_DEADLINE = .ok false
    ∧ (∀ data s, st = .doc (.obj data) → tsEff data.timestamp = some s →
        parseYMD s = none → is_file_up_to_date st TRADE_DEADLINE = .ok false)
    ∧ (∀ refresh : CacheFileState → CacheFileState,
        (∃ d, load_or_update_valid_entries refresh st = .ok (d, true)) ↔
          is_file_up_to_date st TRADE_DEADLINE = .ok false) := by
  refine ⟨⟨?_, ?_⟩, rfl, rfl, ?_, ?_⟩
  · intro h
    obtain ⟨data, rfl⟩ := up_to_date_true_shape st h
    cases hts : data.timestamp with
    | nonString => simp [is_file_up_to_date, hts] at h
    | missing =>
      simp [is_file_up_to_date, hts,
        show parseYMD "1900-01-01" = some ⟨1900, 1, 1⟩ from rfl,
        show dateLtB TRADE_DEADLINE ⟨1900, 1, 1⟩ = false from rfl] at h
    | str s =>
      simp only [is_file_up_to_date, hts] at h
      cases hp : parseYMD s with
      | none => simp [hp] at h
      | some dt =>
        simp only [hp] at h
        refine ⟨data, s, dt, rfl, by simp [tsEff, hts], hp, ?_⟩
        exact Except.ok.inj h
  · intro h
    obtain ⟨data, s, dt, rfl, hts, hp, hlt⟩ := h
    cases hfield : data.timestamp with
    | nonString => rw [hfield] at hts; cases hts
    | missing =>
      rw [hfield] at hts
      obtain rfl := Option.some.inj hts
      rw [show parseYMD "1900-01-01" = some ⟨1900, 1, 1⟩ from rfl] at hp
      obtain rfl := Option.some.inj hp
      cases hlt
    | str s2 =>
      rw [hfield] at hts
      obtain rfl := Option.some.inj hts
      simp only [is_file_up_to_date, hfield, hp, hlt]
  · intro data s hst hts hp
    subst hst
    cases hfield : data.timestamp with
    | nonString => rw [hfield] at hts; cases hts
    | missing =>
      rw [hfield] at hts
      obtain rfl := Option.some.inj hts
      rw [show parseYMD "1900-01-01" = some ⟨1900, 1, 1⟩ from rfl] at hp
      cases hp
    | str s2 =>
      rw [hfield] at hts
      obtain rfl := Option.some.inj hts
      simp only [is_file_up_to_date, hfield, hp]
  · intro refresh
    cases hc : is_file_up_to_date st TRADE_DEADLINE with
    | error e =>
      have hload : load_or_update_valid_entries refresh st = .error e := by
        unfold load_or_update_valid_entries
        rw [hc]
      constructor
      · intro h
        obtain ⟨d, hd⟩ := h
        rw [hload] at hd
        cases hd
      · intro h
        cases h
    | ok b =>
      cases b with
      | true =>
        obtain ⟨data, rfl⟩ := up_to_date_true_shape st hc
        have hload : load_or_update_valid_entries refresh (.doc (.obj data))
            = .ok (.obj data, false) := by
          unfold load_or_update_valid_entries
          rw [hc]
        constructor
        · intro h
          obtain ⟨d, hd⟩ := h
          rw [hload] at hd
          simp at hd
        · intro h
          simp at h
      | false =>
        have hload : load_or_update_valid_entries refresh st
            = match refresh st with
              | .doc d => Except.ok (d, true)
              | _ => Except.ok (.obj emptyEntriesDict, true) := by
          unfold load_or_update_valid_entries
          rw [hc]
        constructor
        · intro _
          rfl
        · intro _
          cases hr : refresh st with
          | doc d => exact ⟨d, by rw [hload, hr]⟩
          | missing => exact ⟨.obj emptyEntriesDict, by rw [hload, hr]⟩
          | notJson => exact ⟨.obj emptyEntriesDict, by rw [hload, hr]⟩

/-- Witness for C1: a post-deadline timestamp is fresh, and a pre-deadline
timestamp makes loading trigger a refresh. -/
theorem claim_C1_freshness_witness :
    is_file_up_to_date (.doc (.obj ⟨[], [], .str "2024-08-01"⟩)) TRADE_DEADLINE = .ok true
    ∧ ∃ d, load_or_update_valid_entries (fun s => s)
        (.doc (.obj ⟨[], [], .str "2020-01-01"⟩)) = .ok (d, true) := by
  constructor
  · exact (claim_C1_freshness (.doc (.obj ⟨[], [], .str "2024-08-01"⟩))).1.mpr
      ⟨⟨[], [], .str "2024-08-01"⟩, "2024-08-01", ⟨2024, 8, 1⟩, rfl, rfl, rfl, rfl⟩
  · exact ((claim_C1_freshness
      (.doc (.obj ⟨[], [], .str "2020-01-01"⟩))).2.2.2.2 (fun s => s)).mpr rfl

/-- The `Except`-valued loader restricted to a refresh that completes
without raising coincides with the total-refresh embedding. -/
theorem load_or_update_valid_entriesE_total
    (refresh : CacheFileState → CacheFileState) (st : CacheFileState) :
    load_or_update_valid_entriesE (fun s => .ok (refresh s)) st
      = load_or_update_valid_entries refresh st := by
  cases hc : is_file_up_to_date st TRADE_DEADLINE with
  | error e => simp [load_or_update_valid_entriesE, load_or_update_valid_entries, hc]
  | ok b =>
    cases b with
    | true =>
      obtain ⟨data, rfl⟩ := up_to_date_true_shape st hc
      simp [load_or_update_valid_entriesE, load_or_update_valid_entries, hc]
    | false =>
      cases hr : refresh st <;>
        simp [load_or_update_valid_entriesE, load_or_update_valid_entries, hc, hr]

/-- Counterexample to claim C5: a cache file whose content is valid JSON
but not an object (for instance a JSON array) makes the freshness check
raise `AttributeError` on `data.get`, and the exception propagates out of
`load_or_update_valid_entries` instead of yielding a catalog; likewise,
with the cache simply missing, a refresh that itself raises (an upstream
outcome) propagates to the caller from the bare call site. -/
theorem claim_C5_counterexample :
    load_or_update_valid_entries (fun st => st) (.doc .nonObject) = .error ()
    ∧ load_or_update_valid_entriesE
        (fun st => (.error () : Except Unit CacheFileState)) .missing = .error () :=
  ⟨rfl, rfl⟩

/-- Claim C5 as amended: loading returns a catalog value without exception
whenever the freshness check itself does not raise (cache missing,
undecodable, or a JSON object whose `timestamp`, if present, is a string)
AND the refresh step, where invoked, completes without raising; on the
fresh path no refresh runs and no hypothesis on it is needed; a refresh
that raises (`KeyError` in the `FinalProjectv2.py` comprehensions on a
missing key, `AttributeError` on a valid non-object response body in the
roster variant) propagates to the caller; and a non-raising refresh that
leaves no readable cache yields the empty catalog. -/
theorem claim_C5_load_amended (refresh : CacheFileState → Except Unit CacheFileState)
    (st : CacheFileState) :
    (is_file_up_to_date st TRADE_DEADLINE = .ok true →
      ∃ v, load_or_update_valid_entriesE refresh st = .ok v)
    ∧ (is_file_up_to_date st TRADE_DEADLINE ≠ .error () → refresh st ≠ .error () →
      ∃ v, load_or_update_valid_entriesE refresh st = .ok v)
    ∧ (is_file_up_to_date st TRADE_DEADLINE = .ok false →
        (refresh st = .ok .missing ∨ refresh st = .ok .notJson) →
        load_or_update_valid_entriesE refresh st = .ok (.obj emptyEntriesDict, true))
    ∧ (is_file_up_to_date st TRADE_DEADLINE = .ok false → refresh st = .error () →
        load_or_update_valid_entriesE refresh st = .error ()) := by
  have hstale : is_file_up_to_date st TRADE_DEADLINE = .ok false →
      load_or_update_valid_entriesE refresh st
        = match refresh st with
          | .error e => Except.error e
          | .ok st2 =>
            match st2 with
            | .doc d => Except.ok (d, true)
            | _ => Except.ok (.obj emptyEntriesDict, true) := by
    intro hc
    unfold load_or_update_valid_entriesE
    rw [hc]
  refine ⟨?_, ?_, ?_, ?_⟩
  · intro hc
    obtain ⟨data, rfl⟩ := up_to_date_true_shape st hc
    refine ⟨(.obj data, false), ?_⟩
    unfold load_or_update_valid_entriesE
    rw [hc]
  · intro hcne hrne
    cases hc : is_file_up_to_date st TRADE_DEADLINE with
    | error e => exact absurd hc hcne
    | ok b =>
      cases b with
      | true =>
        obtain ⟨data, rfl⟩ := up_to_date_true_shape st hc
        refine ⟨(.obj data, false), ?_⟩
        unfold load_or_update_valid_entriesE
        rw [hc]
      | false =>
        cases hr : refresh st with
        | error e => cases e; exact absurd hr hrne
        | ok st2 =>
          cases st2 with
          | doc d => exact ⟨(d, true), by rw [hstale hc, hr]⟩
          | missing => exact ⟨(.obj emptyEntriesDict, true), by rw [hstale hc, hr]⟩
          | notJson => exact ⟨(.obj emptyEntriesDict, true), by rw [hstale hc, hr]⟩
  · intro hc hr
    rcases hr with hr | hr <;> rw [hstale hc, hr]
  · intro hc hr
    rw [hstale hc, hr]

/-- Witness for C5 (amended): with the cache missing, a non-raising refresh
that writes nothing loads as the empty catalog, while a raising refresh
propagates its exception. -/
theorem claim_C5_load_amended_witness :
    (is_file_up_to_date .missing TRADE_DEADLINE ≠ .error ())
    ∧ load_or_update_valid_entriesE (fun s => .ok s) .missing
        = .ok (.obj emptyEntriesDict, true)
    ∧ load_or_update_valid_entriesE
        (fun s => (.error () : Except Unit CacheFileState)) .missing = .error () :=
  ⟨fun h => Except.noConfusion h,
   (claim_C5_load_amended (fun s => .ok s) .missing).2.2.1 rfl (Or.inl rfl),
   (claim_C5_load_amended (fun s => (.error () : Except Unit CacheFileState))
      .missing).2.2.2 rfl rfl⟩

/-- Counterexample to claim C2: with catalog teams `[{id 1, name "a"}]` and
players `[{id 2, name "a"}]`, the query `"a"` substring-matches the team,
yet resolution returns the player, because the player scan runs even after
a team match and overwrites it. -/
theorem claim_C2_counterexample :
    (⟨[⟨1, "a"⟩], [⟨2, "a"⟩], .missing⟩ : CacheData).teams.find?
        (fun t => nameMatch "a" t.name) = some ⟨1, "a"⟩
    ∧ mainResolve ⟨[⟨1, "a"⟩], [⟨2, "a"⟩], .missing⟩ "a"
        = some ⟨some 2, some "player", some "a"⟩ :=
  ⟨rfl, by decide⟩

/-- Claim C2 as amended: candidates are scanned teams first, then players,
but the player scan is unconditional, so the resolved entity is the first
matching player whenever one exists (with truthy id), and the first
matching team only when no player matches. -/
theorem claim_C2_amended_resolution (entries : CacheData) (q : String) :
    (∀ p, entries.players.find? (fun e => nameMatch q e.name) = some p → p.id ≠ 0 →
      mainResolve entries q = some ⟨some p.id, some "player", some p.name⟩)
    ∧ (∀ t, entries.players.find? (fun e => nameMatch q e.name) = none →
        entries.teams.find? (fun e => nameMatch q e.name) = some t → t.id ≠ 0 →
        mainResolve entries q = some ⟨some t.id, some "team", some t.name⟩) := by
  constructor
  · intro p hp hne
    simp [mainResolve, hp, pyFalsyOptNat, hne]
  · intro t hpn ht hne
    simp [mainResolve, hpn, ht, pyFalsyOptNat, hne]

/-- Witness for C2 (amended) at the counterexample catalog. -/
theorem claim_C2_amended_resolution_witness :
    mainResolve ⟨[⟨1, "a"⟩], [⟨2, "a"⟩], .missing⟩ "a"
      = some ⟨some 2, some "player", some "a"⟩ :=
  (claim_C2_amended_resolution ⟨[⟨1, "a"⟩], [⟨2, "a"⟩], .missing⟩ "a").1
    ⟨2, "a"⟩ rfl (by decide)

/-- Claim C10: when the only surviving match is an entity with id `0`, the
falsy-id bookkeeping treats it as no match at all: the league check can
still fire for the query "mlb", and otherwise resolution fails with the
invalid-input outcome instead of returning the matched entity. -/
theorem claim_C10_falsy_id (entries : CacheData) (q : String) (e : Entity)
    (h : (entries.teams.find? (fun x => nameMatch q x.name) = some e ∧ e.id = 0 ∧
           entries.players.find? (fun x => nameMatch q x.name) = none) ∨
         (entries.players.find? (fun x => nameMatch q x.name) = some e ∧ e.id = 0)) :
    (lowerStr q = "mlb" →
      mainResolve entries q = some ⟨none, some "league", some "MLB"⟩)
    ∧ (lowerStr q ≠ "mlb" → mainResolve entries q = none) := by
  rcases h with ⟨ht, hid, hpn⟩ | ⟨hp, hid⟩
  · constructor
    · intro hq
      simp [mainResolve, ht, hpn, hid, pyFalsyOptNat, hq]
    · intro hq
      simp [mainResolve, ht, hpn, hid, pyFalsyOptNat, hq]
  · constructor
    · intro hq
      simp [mainResolve, hp, hid, pyFalsyOptNat, hq]
    · intro hq
      simp [mainResolve, hp, hid, pyFalsyOptNat, hq]

/-- Witness for C10: a catalog whose only entity is a team with id `0`
named "zz"; the query "zz" matches it yet resolution fails. -/
theorem claim_C10_falsy_id_witness :
    mainResolve ⟨[⟨0, "zz"⟩], [], .missing⟩ "zz" = none :=
  (claim_C10_falsy_id ⟨[⟨0, "zz"⟩], [], .missing⟩ "zz" ⟨0, "zz"⟩
    (Or.inl ⟨rfl, rfl, rfl⟩)).2 (by decide)
